import Mathlib

/-!
Shallow embedding of the Amana Bookstore Express API (`src/server.js`).

The server stores two JSON collections (`books`, `reviews`), each an ordered
sequence of JSON objects.  Handlers read the whole collection, compute in
memory, and (for mutations) write the whole collection back.  We model JSON
values by `JVal`, objects by association lists (`JObj`), and each route
handler by a pure function from the loaded collection (plus request data) to
a response together with the optionally written-back collection
(`none` = the handler returned before any `writeData` call).

Field-access semantics: JavaScript property lookup on an object literal is
modelled by `getField`, which returns the value of the first matching key in
the association list.  The object spread `{...a, ...b}` is modelled by
`jsMerge a b`, an object whose lookups prefer `b` (later spread wins); key
enumeration order is not needed by any property below and is not modelled.
-/

/-- JSON-ish JavaScript values as far as the server inspects them. -/
inductive JVal where
  | str (s : String)
  | num (n : Int)
  | bool (b : Bool)
  | null
  | arr (xs : List JVal)
deriving Repr

/-- A JavaScript object, as an association list; lookup takes the first hit. -/
abbrev JObj : Type := List (String × JVal)

/-- Property access `o.k`: value of the first entry with key `k`. -/
def getField (o : JObj) (k : String) : Option JVal :=
  (o.find? (fun p => p.1 == k)).map (fun p => p.2)

/-- JavaScript truthiness of a value. -/
def truthyV : JVal → Bool
  | .str s => s ≠ ""
  | .num n => n ≠ 0
  | .bool b => b
  | .null => false
  | .arr _ => true

/-- JavaScript truthiness of a possibly-absent property (`undefined` is falsy). -/
def truthy : Option JVal → Bool
  | none => false
  | some v => truthyV v

/-- The object spread `{...a, ...b}`: lookups prefer `b`, then fall back to `a`. -/
def jsMerge (a b : JObj) : JObj := b ++ a

theorem getField_append (a b : JObj) (k : String) :
    getField (a ++ b) k = ((getField a k).or (getField b k)) := by
  simp only [getField, List.find?_append]
  cases List.find? (fun p => p.1 == k) a <;> simp

theorem getField_jsMerge (a b : JObj) (k : String) :
    getField (jsMerge a b) k = ((getField b k).or (getField a k)) :=
  getField_append b a k

/-- HTTP responses the handlers produce. -/
inductive Resp where
  | ok (body : List JObj)
  | okOne (body : JObj)
  | okMsg (msg : String)
  | created (body : JObj)
  | badRequest (msg : String)
  | notFound (msg : String)
  | serverError
deriving Repr

/-- HTTP status code of a response. -/
def Resp.status : Resp → Nat
  | .ok _ => 200
  | .okOne _ => 200
  | .okMsg _ => 200
  | .created _ => 201
  | .badRequest _ => 400
  | .notFound _ => 404
  | .serverError => 500

/-- Does `pre` occur at the start of `l`?  (`List.isPrefixOf` by `==`.) -/
def startsList (pre l : List Char) : Bool := List.isPrefixOf pre l

/-- Does `needle` occur contiguously inside `hay`? -/
def includesList (needle : List Char) : List Char → Bool
  | [] => needle.isEmpty
  | c :: rest => startsList needle (c :: rest) || includesList needle rest

/-- JavaScript `hay.includes(needle)`: contiguous substring test. -/
def jsIncludes (hay needle : String) : Bool :=
  includesList needle.toList hay.toList

/-- JavaScript `s.toLowerCase()` for ASCII strings, written over the
character list so that it reduces definitionally. -/
def String.jsLower (s : String) : String := String.mk (s.data.map Char.toLower)

/-- One step of the search predicate on a single book, models
`book.title.toLowerCase().includes(q) || book.author.toLowerCase().includes(q)
|| book.tags.some(tag => tag.toLowerCase().includes(q))` with JavaScript
short-circuiting; `.error` is the thrown `TypeError` when a non-string
`title`/`author`, a missing/non-array `tags`, or a non-string tag is reached. -/
def tagsSome (q : String) : List JVal → Except Unit Bool
  | [] => Except.ok false
  | JVal.str t :: rest =>
      if jsIncludes t.jsLower q then Except.ok true else tagsSome q rest
  | _ :: _ => Except.error ()

/-- See `tagsSome`; `q` is the already-lowercased query. -/
def bookMatches (q : String) (b : JObj) : Except Unit Bool :=
  match getField b "title" with
  | some (JVal.str t) =>
    if jsIncludes t.jsLower q then Except.ok true
    else
      match getField b "author" with
      | some (JVal.str a) =>
        if jsIncludes a.jsLower q then Except.ok true
        else
          match getField b "tags" with
          | some (JVal.arr ts) => tagsSome q ts
          | _ => Except.error ()
      | _ => Except.error ()
  | _ => Except.error ()

/-- `data.books.filter(...)` for the search route: the predicate runs on every
element in order, and a thrown `TypeError` aborts the whole filter. -/
def filterBooks (q : String) : List JObj → Except Unit (List JObj)
  | [] => Except.ok []
  | b :: rest =>
    match bookMatches q b with
    | Except.error _ => Except.error ()
    | Except.ok true => (filterBooks q rest).map (fun l => b :: l)
    | Except.ok false => filterBooks q rest

/-- Handler of `GET /api/books/search` (src/server.js:56-71).
`qv` is the raw `req.query.q` (`none` = parameter absent); the handler
lowercases it, rejects a falsy (absent or empty) query with 400, and
otherwise filters; a thrown `TypeError` is caught and mapped to 500. -/
def searchHandler (books : List JObj) (qv : Option String) : Resp :=
  match qv with
  | none => Resp.badRequest "Query parameter q is required"
  | some s =>
    let q := s.jsLower
    if q = "" then Resp.badRequest "Query parameter q is required"
    else
      match filterBooks q books with
      | Except.error _ => Resp.serverError
      | Except.ok rs => Resp.ok rs

/-- `book.featured === true` (src/server.js:47): strict equality with the
boolean `true`, so only a `featured` property holding exactly `true` counts. -/
def isFeatured (b : JObj) : Bool :=
  match getField b "featured" with
  | some (JVal.bool t) => t
  | _ => false

/-- `b.id === pid` where `pid` is the (string) path parameter: strict
equality, so only a string `id` equal to `pid` counts. -/
def idIs (pid : String) (b : JObj) : Bool :=
  match getField b "id" with
  | some (JVal.str s) => s == pid
  | _ => false

theorem idIs_iff (pid : String) (b : JObj) :
    idIs pid b = true ↔ getField b "id" = some (JVal.str pid) := by
  unfold idIs
  cases h : getField b "id" with
  | none => simp
  | some v => cases v <;> simp

/-- Handler of `GET /api/books/:id` (src/server.js:84-103). -/
def bookByIdHandler (books : List JObj) (pid : String) : Resp :=
  match books.find? (idIs pid) with
  | none => Resp.notFound "Book not found"
  | some b => Resp.okOne b

/-- Express routing of `GET /api/books...` requests, in registration order
(src/server.js:44, 56, 74, 84): the literal routes `featured` and `search`
are matched first, then the bare collection path, and any other single
trailing segment `seg` is captured by the parameterized `/:id` route.
`qv`, `startQ`, `endQ` are the `q`, `start`, `end` query parameters; no
registered route reads `startQ`/`endQ`. -/
def dispatchGetBooks (books : List JObj) (seg : Option String)
    (qv startQ endQ : Option String) : Resp :=
  match seg with
  | none => Resp.ok books
  | some s =>
    if s = "featured" then Resp.ok (books.filter isFeatured)
    else if s = "search" then searchHandler books qv
    else bookByIdHandler books s

/-- JavaScript `parseInt(s)` (radix 10): skip leading whitespace, optional
sign, then the longest digit run; `none` models `NaN`. -/
def jsParseInt (s : String) : Option Int :=
  let cs := (s.toList).dropWhile (fun c => c.isWhitespace)
  let signed : Bool × List Char :=
    match cs with
    | '-' :: r => (true, r)
    | '+' :: r => (false, r)
    | _ => (false, cs)
  let ds := signed.2.takeWhile (fun c => c.isDigit)
  if ds.isEmpty then none
  else
    let n : Nat := ds.foldl (fun a c => a * 10 + (c.toNat - 48)) 0
    some (if signed.1 then -(n : Int) else (n : Int))

/-- `parseInt(book.id)`: ids may be any value; a number is returned as is
(fractions do not occur in this model), anything else via the string parse,
`none` standing for `NaN`. -/
def parseIntOfVal : Option JVal → Option Int
  | some (JVal.str s) => jsParseInt s
  | some (JVal.num n) => some n
  | _ => none

/-- Binary `Math.max` on possibly-`NaN` (`none`) numbers: `NaN` is absorbing. -/
def maxNaN (i j : Option Int) : Option Int :=
  match i, j with
  | some a, some b => some (max a b)
  | _, _ => none

/-- `Math.max(...ids)` over a nonempty spread: `none` (`NaN`) is absorbing. -/
def mathMax : List (Option Int) → Option Int
  | [] => none
  | [i] => i
  | i :: j :: rest => maxNaN i (mathMax (j :: rest))

/-- Id generation of `POST /api/books` (src/server.js:111-117): parse all
ids, take the max (0 for an empty collection), add 1, render as a string;
a `NaN` max renders as `"NaN"`. -/
def nextBookId (books : List JObj) : String :=
  let ids := books.map (fun b => parseIntOfVal (getField b "id"))
  let maxId := if ids.length > 0 then mathMax ids else some 0
  match maxId with
  | some m => toString (m + 1)
  | none => "NaN"

/-- Handler of `POST /api/books` (src/server.js:105-133).  Builds
`{id: nextId, ...req.body, datePublished: req.body.datePublished || today}`
(so a payload `id` overrides the generated one, and the trailing
`datePublished` entry wins over any payload value only in the sense of the
`||` default), appends it and always persists.  Returns the new book with
201 and the written-back collection. -/
def createBook (today : String) (books : List JObj) (body : JObj) :
    Resp × Option (List JObj) :=
  let dp : JVal :=
    match getField body "datePublished" with
    | some v => if truthyV v then v else JVal.str today
    | none => JVal.str today
  let newBook : JObj :=
    ("datePublished", dp) :: (body ++ [("id", JVal.str (nextBookId books))])
  (Resp.created newBook, some (books ++ [newBook]))

/-- `findIndex` + in-place replacement by the merged entity, as in
`data.books[index] = { ...data.books[index], ...req.body }`
(src/server.js:139-144): locate the first entry whose `id` equals the path
parameter, replace it by the spread-merge with the payload, and return the
merged entity together with the updated list; `none` = index `-1`. -/
def findReplace (pid : String) (body : JObj) :
    List JObj → Option (JObj × List JObj)
  | [] => none
  | b :: rest =>
    if idIs pid b then
      let m := jsMerge b body
      some (m, m :: rest)
    else
      (findReplace pid body rest).map (fun p => (p.1, b :: p.2))

/-- Handler of `PUT /api/books/:id` (src/server.js:136-151) and of
`PUT /api/reviews/:id` (src/server.js:221-235), which differ only in the
collection and the 404 message `notMsg`.  On a miss, responds 404 without
writing; otherwise persists the updated collection and returns the merged
entity. -/
def putEntity (notMsg : String) (items : List JObj) (pid : String)
    (body : JObj) : Resp × Option (List JObj) :=
  match findReplace pid body items with
  | none => (Resp.notFound notMsg, none)
  | some (m, items2) => (Resp.okOne m, some items2)

/-- `PUT /api/books/:id`. -/
def putBook : List JObj → String → JObj → Resp × Option (List JObj) :=
  putEntity "Book not found"

/-- `PUT /api/reviews/:id`. -/
def putReview : List JObj → String → JObj → Resp × Option (List JObj) :=
  putEntity "Review not found"

/-- Handler of `DELETE /api/books/:id` (src/server.js:154-170) and of
`DELETE /api/reviews/:id` (src/server.js:238-254): keep the entries whose
`id` differs from the path parameter; if the length is unchanged respond
404 without writing, else persist the filtered list and confirm. -/
def deleteEntity (notMsg okText : String) (items : List JObj)
    (pid : String) : Resp × Option (List JObj) :=
  let filtered := items.filter (fun b => !(idIs pid b))
  if filtered.length = items.length then (Resp.notFound notMsg, none)
  else (Resp.okMsg okText, some filtered)

/-- `DELETE /api/books/:id`. -/
def deleteBook : List JObj → String → Resp × Option (List JObj) :=
  deleteEntity "Book not found" "Book deleted successfully"

/-- `DELETE /api/reviews/:id`. -/
def deleteReview : List JObj → String → Resp × Option (List JObj) :=
  deleteEntity "Review not found" "Review deleted successfully"

/-- The effective review of `POST /api/reviews` (src/server.js:199-204):
`{id: review-<now>, timestamp: <iso>, verified: false, ...req.body}`; the
payload overrides any of the generated fields.  `nowMs` is `Date.now()` and
`nowISO` the matching `new Date().toISOString()`. -/
def effectiveReview (nowMs : Nat) (nowISO : String) (body : JObj) : JObj :=
  jsMerge
    [("id", JVal.str ("review-" ++ toString nowMs)),
     ("timestamp", JVal.str nowISO),
     ("verified", JVal.bool false)]
    body

/-- Handler of `POST /api/reviews` (src/server.js:196-218): builds the
effective review, rejects it with 400 when `bookId` or `rating` is falsy
(`!newReview.bookId || !newReview.rating`) without writing, otherwise
appends, persists and returns it with 201. -/
def postReview (nowMs : Nat) (nowISO : String) (reviews : List JObj)
    (body : JObj) : Resp × Option (List JObj) :=
  let newReview := effectiveReview nowMs nowISO body
  if !(truthy (getField newReview "bookId")) ||
     !(truthy (getField newReview "rating")) then
    (Resp.badRequest "bookId and rating are required", none)
  else
    (Resp.created newReview, some (reviews ++ [newReview]))

/-- A well-formed book in the documented shape: string `title` and `author`,
and a `tags` array of strings. -/
def wfBook (b : JObj) : Bool :=
  (match getField b "title" with
   | some (JVal.str _) => true
   | _ => false) &&
  (match getField b "author" with
   | some (JVal.str _) => true
   | _ => false) &&
  (match getField b "tags" with
   | some (JVal.arr ts) =>
     ts.all (fun t => match t with | JVal.str _ => true | _ => false)
   | _ => false)

/-- Written after the spec's description of search: the query matches a book
when it is a case-insensitive substring of the title, of the author, or of
some tag. -/
def searchMatchSpec (s : String) (b : JObj) : Bool :=
  let q := s.jsLower
  (match getField b "title" with
   | some (JVal.str t) => jsIncludes t.jsLower q
   | _ => false) ||
  (match getField b "author" with
   | some (JVal.str a) => jsIncludes a.jsLower q
   | _ => false) ||
  (match getField b "tags" with
   | some (JVal.arr ts) =>
     ts.any (fun t => match t with
       | JVal.str tg => jsIncludes tg.jsLower q
       | _ => false)
   | _ => false)

/-- Numeric view of a possibly-absent field, absent or non-numeric read as 0
(used only by the spec-side top-rated description). -/
def numOr0 : Option JVal → Int
  | some (JVal.num n) => n
  | _ => 0

/-- Modelled from the spec: the top-rated score `rating * reviewCount`,
missing fields treated as 0. -/
def scoreSpec (b : JObj) : Int :=
  numOr0 (getField b "rating") * numOr0 (getField b "reviewCount")

/-- Stable descending insertion for `topRatedSpec`: an element keeps its
place before later elements of equal score. -/
def insertDescBy (score : JObj → Int) (b : JObj) : List JObj → List JObj
  | [] => [b]
  | c :: rest =>
    if score b ≥ score c then b :: c :: rest
    else c :: insertDescBy score b rest

/-- Stable sort, descending by `score`. -/
def sortDescBy (score : JObj → Int) : List JObj → List JObj
  | [] => []
  | b :: rest => insertDescBy score b (sortDescBy score rest)

/-- Modelled from the spec: the top-rated view — score every book by
`rating * reviewCount`, sort descending (stable), return at most 10.  The
repository registers no such route, so this definition follows the spec's
words; it exists to compare against what the routing actually does. -/
def topRatedSpec (books : List JObj) : List JObj :=
  (sortDescBy scoreSpec books).take 10

example : jsIncludes "Quantum Physics" "tum" = true := by decide
example : jsIncludes "abc" "" = true := by decide
example : jsIncludes "abc" "abcd" = false := by decide
example : jsParseInt "12ab" = some 12 := by decide
example : jsParseInt " -7" = some (-7) := by decide
example : jsParseInt "x2" = none := by decide
example : nextBookId [[("id", JVal.str "3")], [("id", JVal.str "11")]] = "12" := by decide
example : nextBookId [] = "1" := by decide
example : nextBookId [[("id", JVal.str "zz")], [("id", JVal.str "4")]] = "NaN" := by decide

theorem getField_cons (k0 k : String) (v : JVal) (o : JObj) :
    getField ((k0, v) :: o) k = if k0 = k then some v else getField o k := by
  by_cases h : k0 = k
  · simp [getField, List.find?, h]
  · have hb : (k0 == k) = false := by simp [h]
    simp [getField, List.find?, hb, h]

theorem jsLower_eq_empty_iff (s : String) : s.jsLower = "" ↔ s = "" := by
  cases s with
  | mk data =>
    constructor
    · intro h
      have hd : data.map Char.toLower = [] := congrArg String.data h
      rcases List.map_eq_nil_iff.mp hd with rfl
      rfl
    · intro h
      rw [h]
      rfl

/-- What a successful `findIndex`-and-replace means: the list splits at the
first match, the returned entity is the spread-merge of the matched entry
with the payload, and the written list replaces it in place. -/
theorem findReplace_eq_some (pid : String) (body : JObj) (items : List JObj)
    (m : JObj) (items2 : List JObj)
    (h : findReplace pid body items = some (m, items2)) :
    ∃ pre old post, items = pre ++ old :: post ∧ idIs pid old = true ∧
      m = jsMerge old body ∧ items2 = pre ++ m :: post := by
  induction items generalizing items2 with
  | nil => simp [findReplace] at h
  | cons b rest ih =>
    by_cases hb : idIs pid b
    · rw [findReplace, if_pos hb] at h
      simp only [Option.some.injEq, Prod.mk.injEq] at h
      obtain ⟨hm, hi⟩ := h
      exact ⟨[], b, rest, rfl, hb, hm.symm, by rw [← hi, ← hm]; rfl⟩
    · rw [findReplace, if_neg hb] at h
      rw [Option.map_eq_some'] at h
      obtain ⟨⟨m0, l0⟩, hfr, hpair⟩ := h
      simp only [Prod.mk.injEq] at hpair
      obtain ⟨hm, hi⟩ := hpair
      subst hm
      obtain ⟨pre, old, post, hsplit, hid, hmerge, hrepl⟩ := ih l0 hfr
      exact ⟨b :: pre, old, post, by rw [hsplit]; rfl, hid, hmerge,
        by rw [← hi, hrepl]; rfl⟩

/-- Claim C1 (amended): a successful `PUT /api/books/:id` splits the stored
collection at the matched book, returns and persists in its place the plain
spread-merge of that book with the payload — every field, `id` included, is
taken from the payload when present there (no re-pinning); the result's `id`
equals the path parameter exactly in the case that the payload carries no
`id` field. -/
theorem putBook_merge_id_unpinned (books : List JObj) (pid : String)
    (body : JObj) (m : JObj) (st : Option (List JObj))
    (h : putBook books pid body = (Resp.okOne m, st)) :
    ∃ pre old post, books = pre ++ old :: post ∧
      getField old "id" = some (JVal.str pid) ∧
      m = jsMerge old body ∧ st = some (pre ++ m :: post) ∧
      (∀ k, getField m k = ((getField body k).or (getField old k))) ∧
      (getField body "id" = none → getField m "id" = some (JVal.str pid)) := by
  unfold putBook putEntity at h
  cases hfr : findReplace pid body books with
  | none =>
    rw [hfr] at h
    exact absurd (congrArg Prod.fst h) (by simp)
  | some p =>
    obtain ⟨m0, items2⟩ := p
    rw [hfr] at h
    simp only [Prod.mk.injEq, Resp.okOne.injEq] at h
    obtain ⟨hm0, hst⟩ := h
    subst hm0
    obtain ⟨pre, old, post, hsplit, hid, hmerge, hrepl⟩ :=
      findReplace_eq_some pid body books m0 items2 hfr
    refine ⟨pre, old, post, hsplit, (idIs_iff pid old).mp hid, hmerge,
      ?_, ?_, ?_⟩
    · rw [← hst, hrepl]
    · intro k
      rw [hmerge, getField_jsMerge]
    · intro hnone
      rw [hmerge, getField_jsMerge, hnone, Option.or,
        (idIs_iff pid old).mp hid]

/-- Concrete one-book store used by the update witnesses/counterexamples. -/
def bookT : JObj := [("id", JVal.str "1"), ("title", JVal.str "T")]

/-- Concrete update payload without an `id` field. -/
def bodyA : JObj := [("author", JVal.str "A")]

/-- `jsMerge bookT bodyA`, written out. -/
def mergedTA : JObj :=
  [("author", JVal.str "A"), ("id", JVal.str "1"), ("title", JVal.str "T")]

theorem putBook_merge_id_unpinned_witness :
    ∃ pre old post, ([bookT] : List JObj) = pre ++ old :: post ∧
      getField old "id" = some (JVal.str "1") ∧
      mergedTA = jsMerge old bodyA ∧
      (some [mergedTA] : Option (List JObj)) = some (pre ++ mergedTA :: post) ∧
      (∀ k, getField mergedTA k = ((getField bodyA k).or (getField old k))) ∧
      (getField bodyA "id" = none →
        getField mergedTA "id" = some (JVal.str "1")) :=
  putBook_merge_id_unpinned [bookT] "1" bodyA mergedTA (some [mergedTA]) rfl

/-- Claim C1 counterexample: `PUT /api/books/1` with payload `{id: "2"}` on a
store holding the book with id "1" returns (and the written entity carries)
`id` "2" — the payload's value — not the path parameter "1". -/
theorem putBook_id_overridden_by_payload :
    (putBook [bookT] "1" [("id", JVal.str "2")]).1
      = Resp.okOne
          [("id", JVal.str "2"), ("id", JVal.str "1"), ("title", JVal.str "T")] ∧
    getField
        [("id", JVal.str "2"), ("id", JVal.str "1"), ("title", JVal.str "T")]
        "id" = some (JVal.str "2") ∧
    ("2" : String) ≠ "1" :=
  ⟨rfl, rfl, by decide⟩

/-- `Math.max` over a spread of parsed ids none of which is `NaN` is the
greatest of them. -/
theorem mathMax_spec (ids : List (Option Int)) (hne : ids ≠ [])
    (h : ∀ i ∈ ids, i ≠ none) :
    ∃ m, mathMax ids = some m ∧ ∀ n : Int, some n ∈ ids → n ≤ m := by
  induction ids with
  | nil => exact absurd rfl hne
  | cons i rest ih =>
    cases rest with
    | nil =>
      obtain ⟨n, rfl⟩ := Option.ne_none_iff_exists'.mp (h i (by simp))
      refine ⟨n, rfl, ?_⟩
      intro n2 hn2
      simp only [List.mem_singleton, Option.some.injEq] at hn2
      omega
    | cons j rest2 =>
      obtain ⟨m2, hm2, hub⟩ :=
        ih (by simp) (fun x hx => h x (List.mem_cons_of_mem i hx))
      obtain ⟨a, rfl⟩ := Option.ne_none_iff_exists'.mp (h (i := i) (by simp))
      refine ⟨max a m2, ?_, ?_⟩
      · rw [mathMax, hm2]
        rfl
      · intro n hn
        rcases List.mem_cons.mp hn with h1 | h2
        · simp only [Option.some.injEq] at h1
          subst h1
          exact le_max_left n m2
        · exact le_trans (hub n h2) (le_max_right a m2)

/-- The computed result of `POST /api/books`: it always persists by
appending, and when the payload has no `id` field the new entity's `id` is
the generated `nextBookId`. -/
theorem createBook_result (today : String) (books : List JObj) (body : JObj) :
    ∃ c, createBook today books body = (Resp.created c, some (books ++ [c])) ∧
      (getField body "id" = none →
        getField c "id" = some (JVal.str (nextBookId books))) := by
  refine ⟨_, rfl, ?_⟩
  intro hnone
  rw [getField_cons, if_neg (by decide), getField_append, hnone, Option.or]
  rfl

/-- When every stored id parses, `nextBookId` renders `max + 1`. -/
theorem nextBookId_eq (books : List JObj)
    (hall : ∀ b ∈ books, parseIntOfVal (getField b "id") ≠ none) :
    ∃ m : Int, nextBookId books = toString (m + 1) ∧
      ∀ b ∈ books, ∀ n : Int,
        parseIntOfVal (getField b "id") = some n → n ≤ m := by
  cases books with
  | nil => exact ⟨0, rfl, by simp⟩
  | cons b0 rest =>
    obtain ⟨m, hm, hub⟩ := mathMax_spec
      ((b0 :: rest).map (fun b => parseIntOfVal (getField b "id")))
      (by simp)
      (by
        intro i hi
        obtain ⟨b, hb, rfl⟩ := List.mem_map.mp hi
        exact hall b hb)
    refine ⟨m, ?_, ?_⟩
    · simp only [nextBookId]
      rw [if_pos (by simp), hm]
    · intro b hb n hn
      exact hub n (by
        rw [← hn]
        exact List.mem_map_of_mem (fun b => parseIntOfVal (getField b "id")) hb)

/-- Claim C2 (amended): when the client payload carries no `id` field and
every pre-existing id parses as an integer, `POST /api/books` appends and
returns an entity whose `id` is the decimal string of `max + 1`, numerically
strictly greater than every pre-existing parsed id.  (When the payload does
carry an `id`, the spread `{id: nextId, ...req.body}` lets the payload win —
see the counterexample.) -/
theorem createBook_id_when_payload_has_none (today : String)
    (books : List JObj) (body : JObj)
    (hnone : getField body "id" = none)
    (hall : ∀ b ∈ books, parseIntOfVal (getField b "id") ≠ none) :
    ∃ (m : Int) (c : JObj),
      createBook today books body = (Resp.created c, some (books ++ [c])) ∧
      getField c "id" = some (JVal.str (toString (m + 1))) ∧
      ∀ b ∈ books, ∀ n : Int,
        parseIntOfVal (getField b "id") = some n → n < m + 1 := by
  obtain ⟨m, hnext, hub⟩ := nextBookId_eq books hall
  obtain ⟨c, hc, hid⟩ := createBook_result today books body
  refine ⟨m, c, hc, by rw [hid hnone, hnext], ?_⟩
  intro b hb n hn
  have := hub b hb n hn
  omega

/-- Concrete one-book store with id "3" for the create witness. -/
def bookId3 : JObj := [("id", JVal.str "3")]

/-- Concrete create payload without an `id`. -/
def bodyTitleA : JObj := [("title", JVal.str "A")]

theorem createBook_id_when_payload_has_none_witness :
    ∃ (m : Int) (c : JObj),
      createBook "2024-01-01" [bookId3] bodyTitleA
        = (Resp.created c, some ([bookId3] ++ [c])) ∧
      getField c "id" = some (JVal.str (toString (m + 1))) ∧
      ∀ b ∈ [bookId3], ∀ n : Int,
        parseIntOfVal (getField b "id") = some n → n < m + 1 :=
  createBook_id_when_payload_has_none "2024-01-01" [bookId3] bodyTitleA rfl
    (by decide)

/-- Claim C2 counterexample: on an empty store, `POST /api/books` with the
payload `{id: "99"}` returns an entity whose `id` is "99" — the payload has
overridden the generated id "1", since the payload is spread after it. -/
theorem createBook_id_overridden_by_payload :
    (createBook "2024-01-01" [] [("id", JVal.str "99")]).1
      = Resp.created
          [("datePublished", JVal.str "2024-01-01"),
           ("id", JVal.str "99"), ("id", JVal.str "1")] ∧
    getField
        [("datePublished", JVal.str "2024-01-01"),
         ("id", JVal.str "99"), ("id", JVal.str "1")] "id"
      = some (JVal.str "99") ∧
    ("99" : String) ≠ "1" :=
  ⟨rfl, rfl, by decide⟩

theorem length_filter_not_add_countP (p : JObj → Bool) (l : List JObj) :
    (l.filter (fun b => !(p b))).length + l.countP p = l.length := by
  induction l with
  | nil => rfl
  | cons b rest ih =>
    cases hb : p b <;>
      simp [List.filter_cons, List.countP_cons, hb, ← ih] <;> omega

/-- A delete whose id matches nothing responds 404 and skips the write. -/
theorem deleteEntity_none_match (nm om : String) (items : List JObj)
    (pid : String) (h : items.countP (idIs pid) = 0) :
    deleteEntity nm om items pid = (Resp.notFound nm, none) := by
  unfold deleteEntity
  have hself : items.filter (fun b => !(idIs pid b)) = items :=
    List.filter_eq_self.mpr (fun b hb => by
      have := List.countP_eq_zero.mp h b hb
      simp_all)
  rw [if_pos (by rw [hself])]

/-- A delete whose id matches exactly one entry removes exactly one entry,
persists, and leaves no entry with that id behind. -/
theorem deleteEntity_one_match (nm om : String) (items : List JObj)
    (pid : String) (h : items.countP (idIs pid) = 1) :
    ∃ items2, deleteEntity nm om items pid = (Resp.okMsg om, some items2) ∧
      items2.length + 1 = items.length ∧ items2.countP (idIs pid) = 0 := by
  unfold deleteEntity
  have hlen := length_filter_not_add_countP (idIs pid) items
  rw [h] at hlen
  refine ⟨items.filter (fun b => !(idIs pid b)), ?_, by omega, ?_⟩
  · rw [if_neg (by omega)]
  · refine List.countP_eq_zero.mpr ?_
    intro b hb
    have := (List.mem_filter.mp hb).2
    simp_all

/-- Claim C7: deleting a book id that matches nothing responds 404 `Book not
found` without writing; when exactly one stored book carries the id (ids
unique), the delete persists a collection exactly one shorter, and a second
delete of the same id responds 404 without writing. -/
theorem deleteBook_not_found_and_exactly_one (books : List JObj)
    (pid : String) :
    (books.countP (idIs pid) = 0 →
      deleteBook books pid = (Resp.notFound "Book not found", none)) ∧
    (books.countP (idIs pid) = 1 →
      ∃ books2,
        deleteBook books pid
          = (Resp.okMsg "Book deleted successfully", some books2) ∧
        books2.length + 1 = books.length ∧
        deleteBook books2 pid = (Resp.notFound "Book not found", none)) := by
  constructor
  · intro h
    exact deleteEntity_none_match _ _ books pid h
  · intro h
    obtain ⟨books2, hdel, hlen, hzero⟩ :=
      deleteEntity_one_match "Book not found" "Book deleted successfully"
        books pid h
    exact ⟨books2, hdel, hlen, deleteEntity_none_match _ _ books2 pid hzero⟩

theorem deleteBook_not_found_and_exactly_one_witness :
    (([bookT] : List JObj).countP (idIs "1") = 1) ∧
    ∃ books2,
      deleteBook [bookT] "1"
        = (Resp.okMsg "Book deleted successfully", some books2) ∧
      books2.length + 1 = ([bookT] : List JObj).length ∧
      deleteBook books2 "1" = (Resp.notFound "Book not found", none) :=
  ⟨by decide,
   (deleteBook_not_found_and_exactly_one [bookT] "1").2 (by decide)⟩

/-- An update whose id matches nothing responds 404 and skips the write. -/
theorem putEntity_err_no_write (nm : String) (items : List JObj)
    (pid : String) (body : JObj)
    (h : (putEntity nm items pid body).1.status = 400 ∨
         (putEntity nm items pid body).1.status = 404) :
    (putEntity nm items pid body).2 = none := by
  unfold putEntity at h ⊢
  cases hfr : findReplace pid body items with
  | none => rfl
  | some p =>
    rw [hfr] at h
    obtain ⟨m, l⟩ := p
    simp [Resp.status] at h

/-- A delete that responds with an error status skips the write. -/
theorem deleteEntity_err_no_write (nm om : String) (items : List JObj)
    (pid : String)
    (h : (deleteEntity nm om items pid).1.status = 400 ∨
         (deleteEntity nm om items pid).1.status = 404) :
    (deleteEntity nm om items pid).2 = none := by
  unfold deleteEntity at h ⊢
  by_cases hl :
      (items.filter (fun b => !(idIs pid b))).length = items.length
  · rw [if_pos hl]
  · rw [if_neg hl] at h
    simp [Resp.status] at h

/-- A review create that responds with an error status skips the write. -/
theorem postReview_err_no_write (nowMs : Nat) (nowISO : String)
    (reviews : List JObj) (body : JObj)
    (h : (postReview nowMs nowISO reviews body).1.status = 400 ∨
         (postReview nowMs nowISO reviews body).1.status = 404) :
    (postReview nowMs nowISO reviews body).2 = none := by
  unfold postReview at h ⊢
  by_cases hc :
      (!(truthy (getField (effectiveReview nowMs nowISO body) "bookId")) ||
       !(truthy (getField (effectiveReview nowMs nowISO body) "rating")))
      = true
  · rw [if_pos hc]
  · rw [if_neg hc] at h
    simp [Resp.status] at h

/-- Claim C9: whenever a mutating handler (book update or delete, review
create, update or delete) responds with a 400 or 404 error, it returns
before the `writeData` call — the written-back document is `none`, so the
persisted collection is untouched on every error path. -/
theorem error_responses_never_write (books reviews : List JObj)
    (pid : String) (body : JObj) (nowMs : Nat) (nowISO : String) :
    ((putBook books pid body).1.status = 400 ∨
       (putBook books pid body).1.status = 404 →
      (putBook books pid body).2 = none) ∧
    ((deleteBook books pid).1.status = 400 ∨
       (deleteBook books pid).1.status = 404 →
      (deleteBook books pid).2 = none) ∧
    ((postReview nowMs nowISO reviews body).1.status = 400 ∨
       (postReview nowMs nowISO reviews body).1.status = 404 →
      (postReview nowMs nowISO reviews body).2 = none) ∧
    ((putReview reviews pid body).1.status = 400 ∨
       (putReview reviews pid body).1.status = 404 →
      (putReview reviews pid body).2 = none) ∧
    ((deleteReview reviews pid).1.status = 400 ∨
       (deleteReview reviews pid).1.status = 404 →
      (deleteReview reviews pid).2 = none) :=
  ⟨putEntity_err_no_write _ books pid body,
   deleteEntity_err_no_write _ _ books pid,
   postReview_err_no_write nowMs nowISO reviews body,
   putEntity_err_no_write _ reviews pid body,
   deleteEntity_err_no_write _ _ reviews pid⟩

theorem error_responses_never_write_witness :
    ((putBook [] "9" [] : Resp × Option (List JObj)).1.status = 404) ∧
    (putBook [] "9" [] : Resp × Option (List JObj)).2 = none :=
  ⟨rfl,
   (error_responses_never_write [] [] "9" [] 0 "").1 (Or.inr rfl)⟩

/-- A review create whose effective entity has truthy `bookId` and `rating`
appends the effective entity, persists and returns it. -/
theorem postReview_ok (nowMs : Nat) (nowISO : String) (reviews : List JObj)
    (body : JObj)
    (h1 : truthy (getField (effectiveReview nowMs nowISO body) "bookId")
      = true)
    (h2 : truthy (getField (effectiveReview nowMs nowISO body) "rating")
      = true) :
    postReview nowMs nowISO reviews body
      = (Resp.created (effectiveReview nowMs nowISO body),
         some (reviews ++ [effectiveReview nowMs nowISO body])) := by
  unfold postReview
  rw [if_neg (by rw [h1, h2]; simp)]

/-- Claim C6 (amended): `POST /api/reviews` responds 400 exactly when the
effective merged entity's `bookId` or `rating` is JavaScript-falsy — absent,
but also present with value `0`, `""`, `false` or `null` (the check is
`!newReview.bookId || !newReview.rating`); when both are truthy the review
is appended, persisted and returned with 201. -/
theorem postReview_validates_truthiness (nowMs : Nat) (nowISO : String)
    (reviews : List JObj) (body : JObj) :
    ((postReview nowMs nowISO reviews body).1.status = 400 ↔
      (truthy (getField (effectiveReview nowMs nowISO body) "bookId") = false ∨
       truthy (getField (effectiveReview nowMs nowISO body) "rating")
         = false)) ∧
    (truthy (getField (effectiveReview nowMs nowISO body) "bookId") = true →
     truthy (getField (effectiveReview nowMs nowISO body) "rating") = true →
     postReview nowMs nowISO reviews body
       = (Resp.created (effectiveReview nowMs nowISO body),
          some (reviews ++ [effectiveReview nowMs nowISO body]))) := by
  refine ⟨?_, postReview_ok nowMs nowISO reviews body⟩
  unfold postReview
  by_cases h1 :
      truthy (getField (effectiveReview nowMs nowISO body) "bookId") <;>
    by_cases h2 :
        truthy (getField (effectiveReview nowMs nowISO body) "rating") <;>
      simp [h1, h2, Resp.status]

theorem postReview_validates_truthiness_witness :
    truthy (getField (effectiveReview 7 "TS"
      [("bookId", JVal.str "1"), ("rating", JVal.num 5)]) "bookId") = true ∧
    truthy (getField (effectiveReview 7 "TS"
      [("bookId", JVal.str "1"), ("rating", JVal.num 5)]) "rating") = true ∧
    postReview 7 "TS" []
        [("bookId", JVal.str "1"), ("rating", JVal.num 5)]
      = (Resp.created (effectiveReview 7 "TS"
           [("bookId", JVal.str "1"), ("rating", JVal.num 5)]),
         some ([] ++ [effectiveReview 7 "TS"
           [("bookId", JVal.str "1"), ("rating", JVal.num 5)]])) :=
  ⟨rfl, rfl,
   (postReview_validates_truthiness 7 "TS" []
     [("bookId", JVal.str "1"), ("rating", JVal.num 5)]).2 rfl rfl⟩

/-- Claim C6 counterexample: a payload carrying both `bookId` ("1") and a
numeric `rating` of 0 — both fields present — is rejected with 400 and
nothing is written, because `!newReview.rating` is true for the number 0. -/
theorem postReview_rejects_present_rating_zero :
    getField (effectiveReview 1000 "TS"
        [("bookId", JVal.str "1"), ("rating", JVal.num 0)]) "bookId"
      = some (JVal.str "1") ∧
    getField (effectiveReview 1000 "TS"
        [("bookId", JVal.str "1"), ("rating", JVal.num 0)]) "rating"
      = some (JVal.num 0) ∧
    postReview 1000 "TS" [] [("bookId", JVal.str "1"), ("rating", JVal.num 0)]
      = (Resp.badRequest "bookId and rating are required", none) :=
  ⟨rfl, rfl, rfl⟩

/-- Claim C8: a valid `POST /api/reviews` creates an entity whose `id` is
`review-<epoch-millis>`, whose `timestamp` is the current ISO instant and
whose `verified` is `false`, except that a payload value for any of these
fields overrides the generated default; every other field comes from the
payload. -/
theorem postReview_generated_defaults (nowMs : Nat) (nowISO : String)
    (reviews : List JObj) (body : JObj)
    (h1 : truthy (getField (effectiveReview nowMs nowISO body) "bookId")
      = true)
    (h2 : truthy (getField (effectiveReview nowMs nowISO body) "rating")
      = true) :
    ∃ c, postReview nowMs nowISO reviews body
        = (Resp.created c, some (reviews ++ [c])) ∧
      getField c "id" = ((getField body "id").or
        (some (JVal.str ("review-" ++ toString nowMs)))) ∧
      getField c "timestamp" = ((getField body "timestamp").or
        (some (JVal.str nowISO))) ∧
      getField c "verified" = ((getField body "verified").or
        (some (JVal.bool false))) ∧
      (∀ k, k ≠ "id" → k ≠ "timestamp" → k ≠ "verified" →
        getField c k = getField body k) := by
  refine ⟨effectiveReview nowMs nowISO body,
    postReview_ok nowMs nowISO reviews body h1 h2, ?_, ?_, ?_, ?_⟩
  · rw [effectiveReview, getField_jsMerge]
    rfl
  · rw [effectiveReview, getField_jsMerge]
    rfl
  · rw [effectiveReview, getField_jsMerge]
    rfl
  · intro k hk1 hk2 hk3
    rw [effectiveReview, getField_jsMerge, getField_cons,
      if_neg (fun hh => hk1 hh.symm), getField_cons,
      if_neg (fun hh => hk2 hh.symm), getField_cons,
      if_neg (fun hh => hk3 hh.symm)]
    simp [getField]

theorem postReview_generated_defaults_witness :
    truthy (getField (effectiveReview 7 "TS" [("bookId", JVal.str "1"),
      ("rating", JVal.num 5)]) "bookId") = true ∧
    ∃ c, postReview 7 "TS" []
        [("bookId", JVal.str "1"), ("rating", JVal.num 5)]
        = (Resp.created c, some ([] ++ [c])) ∧
      getField c "id" = ((getField [("bookId", JVal.str "1"),
        ("rating", JVal.num 5)] "id").or
        (some (JVal.str ("review-" ++ toString 7)))) ∧
      getField c "timestamp" = ((getField [("bookId", JVal.str "1"),
        ("rating", JVal.num 5)] "timestamp").or (some (JVal.str "TS"))) ∧
      getField c "verified" = ((getField [("bookId", JVal.str "1"),
        ("rating", JVal.num 5)] "verified").or (some (JVal.bool false))) ∧
      (∀ k, k ≠ "id" → k ≠ "timestamp" → k ≠ "verified" →
        getField c k
          = getField [("bookId", JVal.str "1"), ("rating", JVal.num 5)] k) :=
  ⟨rfl,
   postReview_generated_defaults 7 "TS" []
     [("bookId", JVal.str "1"), ("rating", JVal.num 5)] rfl rfl⟩

/-- A fully-populated concrete book used by the routing counterexamples. -/
def bookRated : JObj :=
  [("id", JVal.str "1"), ("title", JVal.str "A"), ("author", JVal.str "B"),
   ("tags", JVal.arr [JVal.str "physics"]), ("rating", JVal.num 5),
   ("reviewCount", JVal.num 2), ("featured", JVal.bool true),
   ("datePublished", JVal.str "2022-05-01")]

/-- Any `GET /api/books/<seg>` whose trailing segment is neither `featured`
nor `search` is captured by the `/:id` route; with no stored book whose `id`
is the literal segment, the response is 404 `Book not found`. -/
theorem dispatch_other_seg_not_found (books : List JObj) (s : String)
    (qv startQ endQ : Option String)
    (hf : s ≠ "featured") (hs : s ≠ "search")
    (h : ∀ b ∈ books, idIs s b = false) :
    dispatchGetBooks books (some s) qv startQ endQ
      = Resp.notFound "Book not found" := by
  show (if s = "featured" then Resp.ok (books.filter isFeatured)
    else if s = "search" then searchHandler books qv
    else bookByIdHandler books s) = Resp.notFound "Book not found"
  rw [if_neg hf, if_neg hs]
  unfold bookByIdHandler
  rw [List.find?_eq_none.mpr (fun b hb => by simp [h b hb])]

/-- Claim C3 (amended): the repository registers no `top-rated` route, so a
`GET /api/books/top-rated` request is captured by the `/:id` route with the
path parameter "top-rated"; unless some stored book literally has that `id`,
the response is 404 `Book not found` — never the scored, sorted, truncated
listing the spec describes. -/
theorem topRated_requests_hit_id_route (books : List JObj)
    (qv startQ endQ : Option String)
    (h : ∀ b ∈ books, idIs "top-rated" b = false) :
    dispatchGetBooks books (some "top-rated") qv startQ endQ
      = Resp.notFound "Book not found" :=
  dispatch_other_seg_not_found books "top-rated" qv startQ endQ
    (by decide) (by decide) h

theorem topRated_requests_hit_id_route_witness :
    (∀ b ∈ ([bookRated] : List JObj), idIs "top-rated" b = false) ∧
    dispatchGetBooks [bookRated] (some "top-rated") none none none
      = Resp.notFound "Book not found" :=
  ⟨by decide,
   topRated_requests_hit_id_route [bookRated] none none none (by decide)⟩

/-- Claim C3 counterexample: on a store with one well-formed rated book, a
`GET /api/books/top-rated` request answers 404 `Book not found` — not the
200 listing `topRatedSpec` prescribes (which would be the one-book list). -/
theorem topRated_request_is_404_not_listing :
    dispatchGetBooks [bookRated] (some "top-rated") none none none
      = Resp.notFound "Book not found" ∧
    topRatedSpec [bookRated] = [bookRated] ∧
    Resp.notFound "Book not found" ≠ Resp.ok [bookRated] :=
  ⟨rfl, rfl, fun h => Resp.noConfusion h⟩

/-- Claim C4 (amended): the repository registers no `date-range` route
either, so a `GET /api/books/date-range` request — with or without `start`
and `end` query parameters, which no handler reads — is captured by the
`/:id` route with path parameter "date-range" and, unless a stored book
literally has that `id`, answers 404 `Book not found`; a missing `start` or
`end` is never answered with 400. -/
theorem dateRange_requests_hit_id_route (books : List JObj)
    (qv startQ endQ : Option String)
    (h : ∀ b ∈ books, idIs "date-range" b = false) :
    dispatchGetBooks books (some "date-range") qv startQ endQ
      = Resp.notFound "Book not found" :=
  dispatch_other_seg_not_found books "date-range" qv startQ endQ
    (by decide) (by decide) h

theorem dateRange_requests_hit_id_route_witness :
    (∀ b ∈ ([bookRated] : List JObj), idIs "date-range" b = false) ∧
    dispatchGetBooks [bookRated] (some "date-range") none
        (some "2022-01-01") (some "2022-12-31")
      = Resp.notFound "Book not found" :=
  ⟨by decide,
   dateRange_requests_hit_id_route [bookRated] none
     (some "2022-01-01") (some "2022-12-31") (by decide)⟩

/-- Claim C4 counterexample: a `GET /api/books/date-range` request with
`start` missing (and `end` present) answers 404, not the claimed 400
`ValidationError`; the same 404 appears when both parameters are present. -/
theorem dateRange_missing_start_is_404_not_400 :
    dispatchGetBooks [bookRated] (some "date-range") none none
        (some "2022-12-31")
      = Resp.notFound "Book not found" ∧
    dispatchGetBooks [bookRated] (some "date-range") none
        (some "2022-01-01") (some "2022-12-31")
      = Resp.notFound "Book not found" ∧
    (Resp.notFound "Book not found").status = 404 ∧ (404 : Nat) ≠ 400 :=
  ⟨rfl, rfl, rfl, by decide⟩

/-- On a tags array whose elements are all strings, the `some(...)` step
succeeds and computes the any-tag-contains test. -/
theorem tagsSome_all_str (q : String) (ts : List JVal)
    (h : ts.all (fun t => match t with
      | JVal.str _ => true | _ => false) = true) :
    tagsSome q ts = Except.ok (ts.any (fun t => match t with
      | JVal.str tg => jsIncludes tg.jsLower q
      | _ => false)) := by
  induction ts with
  | nil => rfl
  | cons t rest ih =>
    rw [List.all_cons, Bool.and_eq_true] at h
    obtain ⟨h1, h2⟩ := h
    cases t <;> try simp at h1
    case str tg =>
      rw [List.any_cons]
      by_cases hj : jsIncludes tg.jsLower q
      · simp [tagsSome, hj]
      · simp [tagsSome, hj, ih h2]

/-- On a well-formed book the search predicate cannot throw and computes
exactly the case-insensitive substring test of the spec. -/
theorem bookMatches_wf (s : String) (b : JObj) (hw : wfBook b = true) :
    bookMatches (s.jsLower) b = Except.ok (searchMatchSpec s b) := by
  unfold wfBook at hw
  rw [Bool.and_eq_true, Bool.and_eq_true] at hw
  obtain ⟨⟨hT, hA⟩, hTags⟩ := hw
  cases ht : getField b "title" <;> rw [ht] at hT
  case none => simp at hT
  case some vt =>
    cases vt <;> try simp at hT
    case str t =>
      cases ha : getField b "author" <;> rw [ha] at hA
      case none => simp at hA
      case some va =>
        cases va <;> try simp at hA
        case str a =>
          cases htg : getField b "tags" <;> rw [htg] at hTags
          case none => simp at hTags
          case some vg =>
            cases vg with
            | str s2 => simp at hTags
            | num n2 => simp at hTags
            | bool b2 => simp at hTags
            | null => simp at hTags
            | arr ts =>
              simp only [bookMatches, searchMatchSpec, ht, ha, htg]
              by_cases h1 : jsIncludes t.jsLower s.jsLower
              · simp [h1]
              · by_cases h2 : jsIncludes a.jsLower s.jsLower
                · simp [h1, h2]
                · simp [h1, h2, tagsSome_all_str (s.jsLower) ts hTags]

/-- On an all-well-formed collection the search filter cannot throw and
computes exactly the spec-side filter. -/
theorem filterBooks_wf (s : String) (books : List JObj)
    (hw : books.all wfBook = true) :
    filterBooks (s.jsLower) books
      = Except.ok (books.filter (searchMatchSpec s)) := by
  induction books with
  | nil => rfl
  | cons b rest ih =>
    rw [List.all_cons, Bool.and_eq_true] at hw
    obtain ⟨h1, h2⟩ := hw
    rw [filterBooks, bookMatches_wf s b h1, List.filter_cons]
    cases hm : searchMatchSpec s b <;> simp [hm, ih h2, Except.map]

/-- Claim C5: on a well-formed collection, `GET /api/books/search` responds
400 exactly when `q` is absent or empty; for a non-empty query it responds
200 with exactly the stored books (in storage order) whose title, author or
some tag contains the query case-insensitively — an empty match set is the
200 response with the empty list, not an error. -/
theorem searchHandler_spec (books : List JObj) (qv : Option String)
    (hw : books.all wfBook = true) :
    ((searchHandler books qv).status = 400 ↔ (qv = none ∨ qv = some "")) ∧
    (∀ s, qv = some s → s ≠ "" →
      searchHandler books qv = Resp.ok (books.filter (searchMatchSpec s))) := by
  cases qv with
  | none =>
    refine ⟨⟨fun _ => Or.inl rfl, fun _ => rfl⟩, ?_⟩
    intro s hs
    exact absurd hs (by simp)
  | some s =>
    by_cases he : s.jsLower = ""
    · have hs0 : s = "" := (jsLower_eq_empty_iff s).mp he
      have hbad : searchHandler books (some s)
          = Resp.badRequest "Query parameter q is required" := by
        show (if s.jsLower = ""
            then Resp.badRequest "Query parameter q is required"
            else match filterBooks (s.jsLower) books with
              | Except.error _ => Resp.serverError
              | Except.ok rs => Resp.ok rs)
          = Resp.badRequest "Query parameter q is required"
        rw [if_pos he]
      refine ⟨⟨fun _ => Or.inr (by rw [hs0]), fun _ => by rw [hbad]; rfl⟩, ?_⟩
      intro s2 hs2 hne
      rw [Option.some.injEq] at hs2
      rw [← hs2] at hne
      exact absurd hs0 hne
    · have hok : searchHandler books (some s)
          = Resp.ok (books.filter (searchMatchSpec s)) := by
        show (if s.jsLower = ""
            then Resp.badRequest "Query parameter q is required"
            else match filterBooks (s.jsLower) books with
              | Except.error _ => Resp.serverError
              | Except.ok rs => Resp.ok rs)
          = Resp.ok (books.filter (searchMatchSpec s))
        rw [if_neg he, filterBooks_wf s books hw]
      refine ⟨⟨fun h4 => ?_, fun hd => ?_⟩, ?_⟩
      · rw [hok] at h4
        simp [Resp.status] at h4
      · rcases hd with hd | hd
        · exact absurd hd (by simp)
        · rw [Option.some.injEq] at hd
          rw [hd] at he
          exact absurd ((jsLower_eq_empty_iff "").mpr rfl) he
      · intro s2 hs2 hne
        rw [Option.some.injEq] at hs2
        rw [← hs2]
        exact hok

theorem searchHandler_spec_witness :
    ([bookRated] : List JObj).all wfBook = true ∧ ("phys" : String) ≠ "" ∧
    searchHandler [bookRated] (some "phys")
      = Resp.ok (([bookRated] : List JObj).filter (searchMatchSpec "phys")) :=
  ⟨by decide, by decide,
   (searchHandler_spec [bookRated] (some "phys") (by decide)).2 "phys" rfl
     (by decide)⟩

/-- A thrown predicate on any stored book aborts the whole filter. -/
theorem filterBooks_error_of_mem (q : String) (books : List JObj) (b : JObj)
    (hmem : b ∈ books) (herr : bookMatches q b = Except.error ()) :
    filterBooks q books = Except.error () := by
  induction books with
  | nil => cases hmem
  | cons c rest ih =>
    rcases List.mem_cons.mp hmem with hbc | hmem2
    · rw [filterBooks, ← hbc, herr]
    · rw [filterBooks]
      cases hc : bookMatches q c with
      | error e => rfl
      | ok bb => cases bb <;> simp [ih hmem2, Except.map]

/-- Claim C10 (amended): a search with a non-empty query responds 500 when
some stored book has no `tags` property while its (string) title and author
both fail to match — the tag step `book.tags.some(...)` then throws on that
book.  The access is not unconditional, though: `||` short-circuits, so a
tagless book whose title or author matches never reaches the tag step (see
the counterexample). -/
theorem search_throws_on_missing_tags (books : List JObj) (s t a : String)
    (b : JObj) (hmem : b ∈ books)
    (ht : getField b "title" = some (JVal.str t))
    (ha : getField b "author" = some (JVal.str a))
    (htags : getField b "tags" = none)
    (hq : s.jsLower ≠ "")
    (hnt : jsIncludes t.jsLower s.jsLower = false)
    (hna : jsIncludes a.jsLower s.jsLower = false) :
    searchHandler books (some s) = Resp.serverError := by
  have herr : bookMatches (s.jsLower) b = Except.error () := by
    simp only [bookMatches, ht, ha, htags, hnt, hna]
    rfl
  show (if s.jsLower = ""
      then Resp.badRequest "Query parameter q is required"
      else match filterBooks (s.jsLower) books with
        | Except.error _ => Resp.serverError
        | Except.ok rs => Resp.ok rs)
    = Resp.serverError
  rw [if_neg hq, filterBooks_error_of_mem (s.jsLower) books b hmem herr]

/-- A concrete book without a `tags` property whose title/author match
nothing containing "zzz". -/
def bookNoTags : JObj :=
  [("id", JVal.str "9"), ("title", JVal.str "A"), ("author", JVal.str "B")]

theorem search_throws_on_missing_tags_witness :
    getField bookNoTags "tags" = none ∧
    searchHandler [bookNoTags] (some "zzz") = Resp.serverError :=
  ⟨rfl,
   search_throws_on_missing_tags [bookNoTags] "zzz" "A" "B" bookNoTags
     (by simp) rfl rfl rfl (by decide) (by decide) (by decide)⟩

/-- A concrete book without a `tags` property whose title does contain the
query "quant". -/
def bookNoTagsTitled : JObj :=
  [("title", JVal.str "Quantum"), ("author", JVal.str "B")]

/-- Claim C10 counterexample: the tag step is *not* reached on every book —
a stored book with no `tags` array whose title matches the query is accepted
by the short-circuited `||` and the search responds 200 with the match,
not 500. -/
theorem search_missing_tags_not_always_500 :
    getField bookNoTagsTitled "tags" = none ∧
    searchHandler [bookNoTagsTitled] (some "quant")
      = Resp.ok [bookNoTagsTitled] ∧
    Resp.ok [bookNoTagsTitled] ≠ Resp.serverError :=
  ⟨rfl, rfl, fun h => Resp.noConfusion h⟩
